import Mathlib

/-!
# Verification of the SmartZap durable campaign dispatch engine

Shallow embedding of `src/app/api/campaign/workflow/route.ts` (the durable
adaptive-throttle dispatch workflow) and proofs of the specification claims
about it.  JavaScript runtime values are modelled as follows: strings are
`String`, `null`/`undefined` are `Option`, JS truthiness of a string is
non-emptiness, machine numbers appearing here are integers (`Int`/`Nat`) —
the route only compares, clamps and counts them.  External collaborators
(the Supabase store, the Meta HTTP endpoint, the translation table for Meta
errors, the text-truncation helper) are inputs of the embedded functions, so
every definition is executable.
-/

namespace SmartZap

/-- JS truthiness of a string: every string except `""` is truthy. -/
def jsStrTruthy (s : String) : Bool := s ≠ ""

/-- `a || b` for JS string-or-nullish `a` with string default `b`. -/
def jsOrStr (o : Option String) (d : String) : String :=
  match o with
  | some s => if jsStrTruthy s then s else d
  | none => d

/-- `x || null` for a JS string-or-nullish value: a falsy value becomes `null`. -/
def jsOrNullS (o : Option String) : Option String :=
  match o with
  | some s => if jsStrTruthy s then some s else none
  | none => none

/-- `s || undefined` for a plain JS string: `""` becomes `undefined`. -/
def strOrNone (s : String) : Option String :=
  if jsStrTruthy s then some s else none

/-- JS `String.prototype.trim()`: strip leading and trailing whitespace. -/
def jsTrim (s : String) : String :=
  String.mk (((s.data.dropWhile Char.isWhitespace).reverse.dropWhile
    Char.isWhitespace).reverse)

/-- One entry of the workflow payload's `contacts` array
(`interface Contact`, route.ts lines 22-28).  `contactId` is `Option`
because the runtime check at lines 228-234 guards against it being absent. -/
structure Contact where
  contactId : Option String
  phone : String
  name : String
deriving DecidableEq, Repr

/-- `String(c.contactId)` — JS stringification used at route.ts line 489. -/
def contactIdStr (c : Contact) : String :=
  match c.contactId with
  | some s => s
  | none => "undefined"

/-- `String(c.contactId || '')` — stringification with empty default
(route.ts line 84). -/
def contactIdStrOrEmpty (c : Contact) : String :=
  match c.contactId with
  | some s => s
  | none => ""

/-- `!c.contactId || String(c.contactId).trim().length === 0`
(route.ts line 228): the recipient is missing its required identity. -/
def contactIdMissing (c : Contact) : Bool :=
  match c.contactId with
  | none => true
  | some s => !(jsStrTruthy s) || (jsTrim s).length == 0

/-- `(contacts || []).filter(...)` of route.ts line 228. -/
def missingContactIds (contacts : List Contact) : List Contact :=
  contacts.filter contactIdMissing

/-! ## Campaign state and the completion step -/

/-- Campaign status values (`CampaignStatus` enum as used by the route). -/
inductive CampaignStatus where
  | draft | scheduled | sending | paused | completed | failed
deriving DecidableEq, Repr

/-- The campaign columns the workflow reads (`campaignDb.getById`). -/
structure Campaign where
  recipients : Nat
  sent : Nat
  failed : Nat
  skipped : Nat
  status : CampaignStatus
  firstDispatchAt : Option String
  lastSentAt : Option String
  completedAt : Option String
deriving DecidableEq, Repr

/-- The `complete-campaign` step (route.ts lines 1196-1207): recompute the
final status and stamp `completedAt = now`.  Returns the `(status,
completedAt)` pair written by `campaignDb.updateStatus`.  When the campaign
row is not found the guard `campaign && ...` is falsy and the status stays
`completed`. -/
def completeCampaignStep (campaign : Option Campaign) (now : String) :
    CampaignStatus × Option String :=
  let finalStatus :=
    match campaign with
    | some c =>
        if c.failed + c.skipped = c.recipients ∧ c.recipients > 0 then
          CampaignStatus.failed
        else
          CampaignStatus.completed
    | none => CampaignStatus.completed
  (finalStatus, some now)

/-! ## `safeLastSentAt` (route.ts lines 1164-1173)

`Date.parse` is modelled as an arbitrary `String → Option Int`; `none`
stands for `NaN` (a non-finite parse). -/

/-- `safeLastSentAt`: the value written to `campaigns.last_sent_at` by the
`db_update_campaign_counters` phase.  `existingRaw` is
`(campaign as any).lastSentAt`, `candidateRaw` is `lastSentAtInBatch`;
both go through `|| null` first. -/
def safeLastSentAt (parse : String → Option Int)
    (existingRaw candidateRaw : Option String) : Option String :=
  let existing := jsOrNullS existingRaw
  let candidate := jsOrNullS candidateRaw
  match candidate with
  | none => existing
  | some c =>
      match existing with
      | none => some c
      | some e =>
          match parse e, parse c with
          | some a, some b => if a < b then some c else some e
          | _, _ => existing

/-! ## The Meta send response (route.ts lines 626-662, 692-699)

`fetch` resolving gives `response.ok`/`response.status` and the parsed JSON
body; the body's optional parts are `Option`s. -/

/-- One entry of the response body's `messages` array. -/
structure MetaMessage where
  id : Option String
deriving DecidableEq, Repr

/-- The structured `data.error` object of a Meta failure response. -/
structure MetaErrorBody where
  code : Option Int
  error_user_title : Option String
  etype : Option String
  error_user_msg : Option String
  message : Option String
  details : Option String
  fbtrace_id : Option String
  error_subcode : Option Int
  href : Option String
deriving DecidableEq, Repr

/-- The transport result of the send call: `response.ok`, `response.status`
and the parsed body. -/
structure MetaResponse where
  ok : Bool
  status : Nat
  messages : Option (List MetaMessage)
  error : Option MetaErrorBody
deriving DecidableEq, Repr

/-- `data.messages?.[0]?.id` (route.ts line 662). -/
def responseMessageId (r : MetaResponse) : Option String :=
  match r.messages with
  | some (m :: _) => m.id
  | _ => none

/-- JS truthiness of `data.messages?.[0]?.id`: a present, non-empty
provider-assigned message identifier. -/
def hasProviderMessageId (r : MetaResponse) : Bool :=
  match responseMessageId r with
  | some s => jsStrTruthy s
  | none => false

/-- `data.error?.code || 0` (route.ts line 693). -/
def metaErrorCode (r : MetaResponse) : Int :=
  match r.error with
  | some e => e.code.getD 0
  | none => 0

/-- `data.error?.error_user_title || data.error?.type || ''` (line 694). -/
def metaErrorTitle (r : MetaResponse) : String :=
  jsOrStr (r.error.bind MetaErrorBody.error_user_title)
    (jsOrStr (r.error.bind MetaErrorBody.etype) "")

/-- `data.error?.error_user_msg || data.error?.message || 'Unknown error'`
(line 695). -/
def metaErrorMessage (r : MetaResponse) : String :=
  jsOrStr (r.error.bind MetaErrorBody.error_user_msg)
    (jsOrStr (r.error.bind MetaErrorBody.message) "Unknown error")

/-- `data.error?.error_data?.details || ''` (line 696). -/
def metaErrorDetails (r : MetaResponse) : String :=
  jsOrStr (r.error.bind MetaErrorBody.details) ""

/-- `data.error?.fbtrace_id || ''` (line 697). -/
def metaFbtraceId (r : MetaResponse) : String :=
  jsOrStr (r.error.bind MetaErrorBody.fbtrace_id) ""

/-- `typeof data.error?.error_subcode === 'number' ? it : undefined`
(line 698). -/
def metaSubcode (r : MetaResponse) : Option Int :=
  r.error.bind MetaErrorBody.error_subcode

/-- `data.error?.href || ''` (line 699). -/
def metaHref (r : MetaResponse) : String :=
  jsOrStr (r.error.bind MetaErrorBody.href) ""

/-! ## Per-recipient outcomes (`PendingWriteOp`, route.ts lines 453-479) -/

/-- The three terminal outcome statuses a processed recipient can get. -/
inductive OutcomeStatus where
  | sent | failed | skipped
deriving DecidableEq, Repr

/-- The DB status text for an outcome. -/
def outcomeText : OutcomeStatus → String
  | .sent => "sent"
  | .failed => "failed"
  | .skipped => "skipped"

/-- `ContactWriteOpts` (route.ts lines 453-467). -/
structure WriteOpts where
  sendingAt : Option String := none
  messageId : Option String := none
  error : Option String := none
  errorCode : Option Int := none
  errorTitle : Option String := none
  errorDetails : Option String := none
  errorFbtraceId : Option String := none
  errorSubcode : Option Int := none
  errorHref : Option String := none
  skipCode : Option String := none
  skipReason : Option String := none
  traceId : Option String := none
deriving DecidableEq, Repr

/-- `PendingWriteOp` (route.ts lines 469-473); the contact is kept as its
identifying pair. -/
structure PendingWriteOp where
  contactId : String
  phone : String
  status : OutcomeStatus
  opts : WriteOpts
deriving DecidableEq, Repr

/-! ## The per-recipient environment

What the external world answers during one recipient's processing: the
pure guardrail result of `precheckContactForTemplate` and the Meta send
call's behaviour (a parsed response, or a thrown exception such as the
abort of the 60s timeout). -/

/-- Result of the guardrail `precheckContactForTemplate` for one contact. -/
inductive PrecheckOutcome where
  | eligible (normalizedPhone : String)
  | ineligible (skipCode : String) (reason : String)
deriving DecidableEq, Repr

/-- Behaviour of the external send call for one contact. -/
inductive SendEvent where
  | response (r : MetaResponse)
  | exception (msg : String)
deriving DecidableEq, Repr

/-- The environment one contact's processing observes. -/
structure ContactEnv where
  precheck : PrecheckOutcome
  send : SendEvent
deriving DecidableEq, Repr

/-- `suppressionsByPhone.get(phone)` (route.ts line 573): lookup of the
per-batch suppression map; the value carries the suppression's reason. -/
def lookupSuppression (suppressions : List (String × Option String))
    (phone : String) : Option (Option String) :=
  (suppressions.find? (fun p => p.1 == phone)).map Prod.snd

/-- The fixed data of one batch execution: the adaptive-throttle switch, the
trace id, the per-batch opt-out and suppression sets (route.ts lines
389-418), the per-contact environment, the Meta error translation table
(`getUserFriendlyMessageForMetaError`) and the clock values used for the
`sending_at` / `lastSentAtInBatch` stamps. -/
structure BatchCtx where
  adaptiveEnabled : Bool
  traceId : String
  optOutContactIds : List String
  suppressionsByPhone : List (String × Option String)
  env : Contact → ContactEnv
  translate : Int → String → String → String → String
  nowSending : String
  nowSent : String

/-- What one call of `processContact` (route.ts lines 481-856) does, as one
atomic event: either the contact was not in the claimed set (early return,
line 489), or exactly one outcome op is produced.  `isThroughput429` on a
failure marks `adaptiveEnabled && errorCode === 130429` (line 712). -/
inductive ContactStepResult where
  | notClaimed
  | skippedOp (op : PendingWriteOp)
  | sentOp (op : PendingWriteOp)
  | failedOp (op : PendingWriteOp) (isThroughput429 : Bool)
deriving DecidableEq, Repr

/-- The outcome status a `ContactStepResult` records, if any. -/
def ContactStepResult.statusOf : ContactStepResult → Option OutcomeStatus
  | .notClaimed => none
  | .skippedOp _ => some .skipped
  | .sentOp _ => some .sent
  | .failedOp _ _ => some .failed

/-- The control flow of `processContact` (route.ts lines 481-856) for one
contact, as a function of the claimed set and the environment:
claimed-set gate (line 489), guardrail skip (514-541), opt-out skip
(544-571), suppression skip (573-602), then the send call — a response
classified at line 662 (`response.ok && data.messages?.[0]?.id`), or an
exception caught at the per-recipient boundary (lines 823-855). -/
def contactStep (ctx : BatchCtx) (claimedIds : List String) (c : Contact) :
    ContactStepResult :=
  if ¬ claimedIds.contains (contactIdStr c) then .notClaimed
  else
    match (ctx.env c).precheck with
    | .ineligible skipCode reason =>
        .skippedOp ⟨contactIdStr c, c.phone, .skipped,
          { sendingAt := some ctx.nowSending, skipCode := some skipCode,
            skipReason := some reason, traceId := some ctx.traceId }⟩
    | .eligible normalizedPhone =>
        if ctx.optOutContactIds.contains (contactIdStr c) then
          .skippedOp ⟨contactIdStr c, c.phone, .skipped,
            { sendingAt := some ctx.nowSending, skipCode := some "OPT_OUT",
              skipReason := some "Contato opt-out (não quer receber mensagens).",
              traceId := some ctx.traceId }⟩
        else
          match lookupSuppression ctx.suppressionsByPhone normalizedPhone with
          | some reason =>
              .skippedOp ⟨contactIdStr c, c.phone, .skipped,
                { sendingAt := some ctx.nowSending, skipCode := some "SUPPRESSED",
                  skipReason := some ("Telefone suprimido globalmente" ++
                    (match reason with
                     | some rr => if jsStrTruthy rr then ": " ++ rr else ""
                     | none => "")),
                  traceId := some ctx.traceId }⟩
          | none =>
              match (ctx.env c).send with
              | .exception msg =>
                  .failedOp ⟨contactIdStr c, c.phone, .failed,
                    { sendingAt := some ctx.nowSending, error := some msg,
                      errorTitle := some "Contact exception",
                      errorDetails := some msg,
                      traceId := some ctx.traceId }⟩ false
              | .response r =>
                  if r.ok && hasProviderMessageId r then
                    .sentOp ⟨contactIdStr c, c.phone, .sent,
                      { sendingAt := some ctx.nowSending,
                        messageId := responseMessageId r,
                        traceId := some ctx.traceId }⟩
                  else
                    let errorCode := metaErrorCode r
                    let translatedError := ctx.translate errorCode
                      (metaErrorTitle r) (metaErrorMessage r) (metaErrorDetails r)
                    .failedOp ⟨contactIdStr c, c.phone, .failed,
                      { sendingAt := some ctx.nowSending,
                        error := some ("(#" ++ toString errorCode ++ ") " ++ translatedError),
                        errorCode := some errorCode,
                        errorTitle := strOrNone (metaErrorTitle r),
                        errorDetails := strOrNone
                          (if jsStrTruthy (metaErrorDetails r) then metaErrorDetails r
                           else metaErrorMessage r),
                        errorFbtraceId := strOrNone (metaFbtraceId r),
                        errorSubcode := metaSubcode r,
                        errorHref := strOrNone (metaHref r),
                        traceId := some ctx.traceId }⟩
                      (ctx.adaptiveEnabled && errorCode == 130429)

/-! ## Batch accumulation (the worker pool's shared mutable state) -/

/-- The batch-scoped mutable variables of the `send-batch-i` step:
`writeOps`, the counters, the throttle flag `sawThroughput429` plus the
number of `recordThroughputExceeded` invocations, `lastSentAtInBatch`, and
the list of contacts for which the external send call was issued. -/
structure BatchState where
  writeOps : List PendingWriteOp
  sendAttempts : List String
  sentCount : Nat
  failedCount : Nat
  skippedCount : Nat
  sawThroughput429 : Bool
  throttleDecreaseCalls : Nat
  lastSentAtInBatch : Option String
deriving DecidableEq, Repr

/-- The batch state before any contact is processed. -/
def initialBatchState : BatchState :=
  { writeOps := [], sendAttempts := [], sentCount := 0, failedCount := 0,
    skippedCount := 0, sawThroughput429 := false, throttleDecreaseCalls := 0,
    lastSentAtInBatch := none }

/-- `processContact` folded into the shared batch state: pushes the op,
bumps the counter, records the send attempt, and runs the throttle
feedback `if (adaptiveEnabled && errorCode === 130429 && !sawThroughput429)
{ sawThroughput429 = true; await recordThroughputExceeded(...) }`
(route.ts lines 712-739; the check-and-set pair has no `await` between
test and assignment, so it is one atomic event loop segment). -/
def processContact (ctx : BatchCtx) (claimedIds : List String)
    (st : BatchState) (c : Contact) : BatchState :=
  match contactStep ctx claimedIds c with
  | .notClaimed => st
  | .skippedOp op =>
      { st with writeOps := st.writeOps ++ [op],
                skippedCount := st.skippedCount + 1 }
  | .sentOp op =>
      { st with writeOps := st.writeOps ++ [op],
                sendAttempts := st.sendAttempts ++ [op.contactId],
                sentCount := st.sentCount + 1,
                lastSentAtInBatch := some ctx.nowSent }
  | .failedOp op is429 =>
      { st with writeOps := st.writeOps ++ [op],
                sendAttempts := st.sendAttempts ++ [op.contactId],
                failedCount := st.failedCount + 1,
                sawThroughput429 := st.sawThroughput429 || is429,
                throttleDecreaseCalls :=
                  if is429 && !st.sawThroughput429 then
                    st.throttleDecreaseCalls + 1
                  else st.throttleDecreaseCalls }

/-- The worker pool phase: every batch element is pulled exactly once via
the shared cursor (route.ts lines 858-874) and processed; the order of
resuming segments does not change any per-contact outcome, so the pool is
summarised by one pass over the batch. -/
def runBatchPool (ctx : BatchCtx) (claimedIds : List String)
    (batch : List Contact) : BatchState :=
  batch.foldl (processContact ctx claimedIds) initialBatchState

/-! ## The bulk claim (route.ts lines 76-107) -/

/-- What `bulkClaimPendingForSend` returns. -/
structure ClaimResult where
  claimedAt : Option String
  claimedIds : List String
deriving DecidableEq, Repr

/-- The store's answer to the conditional bulk `UPDATE ... WHERE status =
'pending'`: the rows actually transitioned, or an error (store
unavailable). -/
inductive StoreUpdateResult where
  | rows (contactIds : List String)
  | failure (message : String)
deriving DecidableEq, Repr

/-- `bulkClaimPendingForSend` (route.ts lines 76-107).  The id list is
`Array.from(new Set(contacts.map(c => String(c.contactId || '').trim()).filter(Boolean)))`.
On a store error the source logs a warning and returns
`{ claimedAt: null, claimedIds: new Set() }` — it does **not** throw, which
is why the result is always `Except.ok`. -/
def bulkClaimPendingForSend (contacts : List Contact)
    (store : StoreUpdateResult) (now : String) : Except String ClaimResult :=
  let ids := ((contacts.map (fun c => jsTrim (contactIdStrOrEmpty c))).filter
    (fun s => jsStrTruthy s)).eraseDups
  if ids.isEmpty then .ok ⟨none, []⟩
  else
    match store with
    | .failure _ => .ok ⟨none, []⟩
    | .rows rs => .ok ⟨if rs.length > 0 then some now else none, rs⟩

/-- The `send-batch-i` step (route.ts lines 271-1192), from the template
load and pause check (lines 332-345) through the bulk claim (425), the
zero-claim short-circuit (448-451) and the worker pool.  `.error` models a
step-aborting throw. -/
def runSendBatch (ctx : BatchCtx) (templateFound : Bool)
    (statusAtBatchStart : Option CampaignStatus) (batch : List Contact)
    (store : StoreUpdateResult) (nowClaim : String) :
    Except String BatchState :=
  if !templateFound then
    .error "Template não encontrado no banco local. Sincronize Templates."
  else if statusAtBatchStart = some CampaignStatus.paused then
    .ok initialBatchState
  else
    match bulkClaimPendingForSend batch store nowClaim with
    | .error e => .error e
    | .ok claim =>
        if claim.claimedIds.length = 0 then .ok initialBatchState
        else .ok (runBatchPool ctx claim.claimedIds batch)

/-- The outcome ops one contact contributes (projection of `contactStep`
used to reason about the pool's `writeOps`). -/
def contactOps (ctx : BatchCtx) (claimedIds : List String) (c : Contact) :
    List PendingWriteOp :=
  match contactStep ctx claimedIds c with
  | .notClaimed => []
  | .skippedOp op => [op]
  | .sentOp op => [op]
  | .failedOp op _ => [op]

/-- The send attempts one contact contributes. -/
def contactAttempts (ctx : BatchCtx) (claimedIds : List String) (c : Contact) :
    List String :=
  match contactStep ctx claimedIds c with
  | .notClaimed => []
  | .skippedOp _ => []
  | .sentOp op => [op.contactId]
  | .failedOp op _ => [op.contactId]

/-! ## Result persistence: the `campaign_contacts` row and partial updates

A DB row update assigns some columns and leaves the rest untouched; an
assigned column's new value may be `NULL`.  `RowUpdate` therefore wraps each
column in `Option (Option _)`: `none` = column not in the update object,
`some v` = column set to `v`. -/

/-- The `campaign_contacts` columns the engine writes. -/
structure RecipientRow where
  status : String
  sending_at : Option String
  sent_at : Option String
  failed_at : Option String
  skipped_at : Option String
  message_id : Option String
  error : Option String
  skip_code : Option String
  skip_reason : Option String
  failure_code : Option Int
  failure_reason : Option String
  failure_title : Option String
  failure_details : Option String
  failure_fbtrace_id : Option String
  failure_subcode : Option Int
  failure_href : Option String
  trace_id : Option String
deriving DecidableEq, Repr

/-- A partial column update of a `campaign_contacts` row. -/
structure RowUpdate where
  status : Option String := none
  sending_at : Option (Option String) := none
  sent_at : Option (Option String) := none
  failed_at : Option (Option String) := none
  skipped_at : Option (Option String) := none
  message_id : Option (Option String) := none
  error : Option (Option String) := none
  skip_code : Option (Option String) := none
  skip_reason : Option (Option String) := none
  failure_code : Option (Option Int) := none
  failure_reason : Option (Option String) := none
  failure_title : Option (Option String) := none
  failure_details : Option (Option String) := none
  failure_fbtrace_id : Option (Option String) := none
  failure_subcode : Option (Option Int) := none
  failure_href : Option (Option String) := none
  trace_id : Option (Option String) := none
deriving DecidableEq, Repr

/-- Apply a partial update to a row: assigned columns take their new value,
the rest keep the existing one. -/
def applyRowUpdate (r : RecipientRow) (u : RowUpdate) : RecipientRow :=
  { status := u.status.getD r.status,
    sending_at := u.sending_at.getD r.sending_at,
    sent_at := u.sent_at.getD r.sent_at,
    failed_at := u.failed_at.getD r.failed_at,
    skipped_at := u.skipped_at.getD r.skipped_at,
    message_id := u.message_id.getD r.message_id,
    error := u.error.getD r.error,
    skip_code := u.skip_code.getD r.skip_code,
    skip_reason := u.skip_reason.getD r.skip_reason,
    failure_code := u.failure_code.getD r.failure_code,
    failure_reason := u.failure_reason.getD r.failure_reason,
    failure_title := u.failure_title.getD r.failure_title,
    failure_details := u.failure_details.getD r.failure_details,
    failure_fbtrace_id := u.failure_fbtrace_id.getD r.failure_fbtrace_id,
    failure_subcode := u.failure_subcode.getD r.failure_subcode,
    failure_href := u.failure_href.getD r.failure_href,
    trace_id := u.trace_id.getD r.trace_id }

/-- The bulk-upsert row built for one outcome (`upsertRows` mapping,
route.ts lines 887-960).  `normText` is
`normalizeMetaErrorTextForStorage` (string, length bound); `traceId` and
`now` are the step's trace id and clock. -/
def upsertRowFor (op : PendingWriteOp) (traceId now : String)
    (normText : String → Nat → String) : RowUpdate :=
  let base : RowUpdate :=
    { status := some (outcomeText op.status),
      sending_at := some (jsOrNullS op.opts.sendingAt),
      trace_id := some (some traceId) }
  match op.status with
  | .sent =>
      { base with
        sent_at := some (some now),
        failed_at := some none,
        skipped_at := some none,
        message_id := some (jsOrNullS op.opts.messageId),
        error := some none,
        skip_code := some none,
        skip_reason := some none,
        failure_code := some none,
        failure_reason := some none,
        failure_title := some none,
        failure_details := some none,
        failure_fbtrace_id := some none,
        failure_subcode := some none,
        failure_href := some none }
  | .skipped =>
      { base with
        skipped_at := some (some now),
        sent_at := some none,
        failed_at := some none,
        message_id := some none,
        error := some none,
        skip_code := some (jsOrNullS op.opts.skipCode),
        skip_reason := some (match jsOrNullS op.opts.skipReason with
          | some sr => some sr
          | none => jsOrNullS op.opts.error),
        failure_code := some none,
        failure_reason := some none,
        failure_title := some none,
        failure_details := some none,
        failure_fbtrace_id := some none,
        failure_subcode := some none,
        failure_href := some none }
  | .failed =>
      { base with
        failed_at := some (some now),
        sent_at := some none,
        skipped_at := some none,
        message_id := some none,
        error := some (jsOrNullS op.opts.error),
        failure_code := (match op.opts.errorCode with
          | some n => some (some n)
          | none => none),
        failure_title := (match op.opts.errorTitle with
          | some t => some (some (normText t 200))
          | none => none),
        failure_details := (match op.opts.errorDetails with
          | some d => some (some (normText d 800))
          | none => none),
        failure_fbtrace_id := (match op.opts.errorFbtraceId with
          | some f => some (some (normText f 200))
          | none => none),
        failure_subcode := (match op.opts.errorSubcode with
          | some sc => some (some sc)
          | none => none),
        failure_href := (match op.opts.errorHref with
          | some h => some (some (normText h 400))
          | none => none),
        failure_reason := (match op.opts.error with
          | some e => if jsStrTruthy (jsTrim e) then some (some e) else none
          | none => none),
        skip_code := some none,
        skip_reason := some none }

/-- The per-row fallback writer `updateContactStatus` (route.ts lines
127-201): the partial update object it sends for one contact.  Note which
columns each status branch does **not** assign. -/
def updateContactStatus (status : OutcomeStatus) (opts : WriteOpts)
    (now : String) (normText : String → Nat → String) : RowUpdate :=
  let base : RowUpdate :=
    { status := some (outcomeText status),
      trace_id := (match jsOrNullS opts.traceId with
        | some t => some (some t)
        | none => none) }
  match status with
  | .sent =>
      { base with
        sent_at := some (some now),
        message_id := some (jsOrNullS opts.messageId),
        error := some none,
        skip_code := some none,
        skip_reason := some none,
        skipped_at := some none }
  | .failed =>
      { base with
        failed_at := some (some now),
        error := some (jsOrNullS opts.error),
        failure_code := (match opts.errorCode with
          | some n => some (some n)
          | none => none),
        failure_title := (match opts.errorTitle with
          | some t => some (some (normText t 200))
          | none => none),
        failure_details := (match opts.errorDetails with
          | some d => some (some (normText d 800))
          | none => none),
        failure_fbtrace_id := (match opts.errorFbtraceId with
          | some f => some (some (normText f 200))
          | none => none),
        failure_subcode := (match opts.errorSubcode with
          | some sc => some (some sc)
          | none => none),
        failure_href := (match opts.errorHref with
          | some h => some (some (normText h 400))
          | none => none),
        failure_reason := (match opts.error with
          | some e => if jsStrTruthy (jsTrim e) then some (some e) else none
          | none => none) }
  | .skipped =>
      { base with
        skipped_at := some (some now),
        skip_code := some (jsOrNullS opts.skipCode),
        skip_reason := some (match jsOrNullS opts.skipReason with
          | some sr => some sr
          | none => jsOrNullS opts.error),
        error := some none,
        message_id := some none }

/-- Number of terminal timestamps set on a row. -/
def terminalStampCount (r : RecipientRow) : Nat :=
  (if r.sent_at.isSome then 1 else 0) +
  (if r.failed_at.isSome then 1 else 0) +
  (if r.skipped_at.isSome then 1 else 0)

/-- All failure fields (including `error`) are null. -/
def failureFieldsCleared (r : RecipientRow) : Bool :=
  r.error == none && r.failure_code == none && r.failure_reason == none &&
  r.failure_title == none && r.failure_details == none &&
  r.failure_fbtrace_id == none && r.failure_subcode == none &&
  r.failure_href == none

/-- Both skip fields are null. -/
def skipFieldsCleared (r : RecipientRow) : Bool :=
  r.skip_code == none && r.skip_reason == none

/-! ## The workflow run prefix and step sequence (route.ts lines 205-268) -/

/-- The checkpointed steps of the workflow. -/
inductive WorkflowStep where
  | initCampaign
  | sendBatch (i : Nat)
  | completeCampaign
deriving DecidableEq, Repr

/-- `BATCH_SIZE` (route.ts lines 258-261): `Number.isFinite(raw) ?
Math.max(1, Math.min(200, Math.floor(raw))) : 10`; `none` models a
non-finite raw value. -/
def batchSizeOf (raw : Option Int) : Nat :=
  match raw with
  | some n => (max 1 (min 200 n)).toNat
  | none => 10

/-- Number of batches the loop `for (i = 0; i < len; i += BATCH_SIZE)`
produces. -/
def batchCount (numContacts batchSize : Nat) : Nat :=
  (numContacts + batchSize - 1) / batchSize

/-- The workflow handler prefix (route.ts lines 206-268): the
`missingContactIds` hardening check at lines 228-234 throws **before**
`context.run('init-campaign')` and before any batch step; otherwise the
step sequence `init, send-batch-0 .. send-batch-(n-1), complete` runs.
Returns the steps that execute and the thrown error, if any. -/
def workflowRun (contacts : List Contact) (batchSize : Nat) :
    List WorkflowStep × Option String :=
  if 0 < (missingContactIds contacts).length then
    ([], some "[Workflow] Payload inválido: contato(s) sem contactId.")
  else
    (WorkflowStep.initCampaign ::
      ((List.range (batchCount contacts.length batchSize)).map WorkflowStep.sendBatch ++
        [WorkflowStep.completeCampaign]),
      none)

/-! ## The worker pool cursor (route.ts lines 858-874) -/

/-- `const workerCount = Math.min(concurrency, batch.length)` (line 861). -/
def workerCount (concurrency batchLen : Nat) : Nat :=
  min concurrency batchLen

/-- The clamp on the configured concurrency (route.ts lines 306-309):
`Number.isFinite(raw) ? Math.max(1, Math.min(50, Math.floor(raw))) : 1`. -/
def clampConcurrency (raw : Option Int) : Nat :=
  match raw with
  | some n => (max 1 (min 50 n)).toNat
  | none => 1

/-- Modelled from the spec: the worker count §4.5 claims,
`min(concurrency, len(claimedRecipients))`, where the claimed recipients
are the batch entries whose id is in the claimed set.  Stated only to be
compared with the source's `workerCount`. -/
def specWorkerCount (concurrency : Nat) (claimedIds : List String)
    (batch : List Contact) : Nat :=
  min concurrency (batch.filter (fun c => claimedIds.contains (contactIdStr c))).length

/-- The pool's shared state: the cursor `nextIndex`, which workers are
still running, and which batch indices have been pulled by which worker. -/
structure PoolState (n : Nat) where
  nextIndex : Nat
  active : Fin n → Bool
  assigned : List (Fin n × Nat)

/-- All `n` workers start active with the cursor at 0. -/
def poolInit (n : Nat) : PoolState n :=
  { nextIndex := 0, active := fun _ => true, assigned := [] }

/-- One atomic cursor acquisition by worker `w` (route.ts lines 865-869):
`const idx = nextIndex; nextIndex += 1; if (idx >= batch.length) return;
await processContact(batch[idx])` — read and increment happen with no
`await` between them, so they form one event-loop segment. -/
def poolStep {n : Nat} (len : Nat) (s : PoolState n) (w : Fin n) : PoolState n :=
  if s.active w then
    if s.nextIndex < len then
      { nextIndex := s.nextIndex + 1, active := s.active,
        assigned := s.assigned ++ [(w, s.nextIndex)] }
    else
      { nextIndex := s.nextIndex + 1,
        active := Function.update s.active w false,
        assigned := s.assigned }
  else s

/-- Run the pool under an arbitrary interleaving `schedule` of worker
segments. -/
def poolRun (len n : Nat) (schedule : List (Fin n)) : PoolState n :=
  schedule.foldl (poolStep len) (poolInit n)

/-! ## Concrete sample data (used to evaluate the theorems on inputs) -/

/-- A concrete recipient. -/
def sampleContact : Contact :=
  { contactId := some "c1", phone := "5511999999999", name := "Alice" }

/-- A second concrete recipient. -/
def sampleContact2 : Contact :=
  { contactId := some "c2", phone := "5511888888888", name := "Bia" }

/-- A third concrete recipient. -/
def sampleContact3 : Contact :=
  { contactId := some "c3", phone := "5511777777777", name := "Caio" }

/-- A concrete batch context in which every contact observes the same
environment `e`: guardrail passes or fails as `e` says, no opt-outs, no
suppressions. -/
def sampleEnvCtx (e : ContactEnv) : BatchCtx :=
  { adaptiveEnabled := true, traceId := "trace", optOutContactIds := [],
    suppressionsByPhone := [], env := fun _ => e,
    translate := fun _ _ _ _ => "erro traduzido",
    nowSending := "2024-01-01T00:00:00.000Z",
    nowSent := "2024-01-01T00:00:01.000Z" }

/-- A concrete Meta response: HTTP 200, transport-ok, but no
provider-assigned message identifier in the body. -/
def okResponseWithoutId : MetaResponse :=
  { ok := true, status := 200, messages := some [], error := none }

/-- The structured error body of a throughput-exceeded Meta response. -/
def throughput429Body : MetaErrorBody :=
  { code := some 130429, error_user_title := none,
    etype := some "OAuthException", error_user_msg := none,
    message := some "Too many requests", details := none,
    fbtrace_id := none, error_subcode := none, href := none }

/-- A concrete Meta error response carrying the throughput-exceeded code
130429. -/
def throughput429Response : MetaResponse :=
  { ok := false, status := 400, messages := none,
    error := some throughput429Body }

/-! ## Helper lemmas about the worker pool fold -/

/-- A contact not in the claimed set is a no-op of `contactStep`. -/
theorem contactStep_not_claimed (ctx : BatchCtx) (ids : List String) (c : Contact)
    (h : ids.contains (contactIdStr c) = false) :
    contactStep ctx ids c = .notClaimed := by
  unfold contactStep
  rw [if_pos]
  simpa using h

/-- A claimed contact's step is never `notClaimed`, and whatever op it
produces carries the contact's id. -/
theorem contactStep_claimed (ctx : BatchCtx) (ids : List String) (c : Contact)
    (h : ids.contains (contactIdStr c) = true) :
    ∃ op : PendingWriteOp, op.contactId = contactIdStr c ∧
      (contactStep ctx ids c = .skippedOp op ∨ contactStep ctx ids c = .sentOp op ∨
        ∃ b, contactStep ctx ids c = .failedOp op b) := by
  unfold contactStep
  rw [if_neg (by simpa using h)]
  cases hp : (ctx.env c).precheck with
  | ineligible sc r => exact ⟨_, rfl, Or.inl rfl⟩
  | eligible φ =>
      by_cases ho : ctx.optOutContactIds.contains (contactIdStr c) = true
      · simp only [ho, if_true]
        exact ⟨_, rfl, Or.inl rfl⟩
      · simp only [Bool.not_eq_true] at ho
        simp only [ho, Bool.false_eq_true, if_false]
        cases hs : lookupSuppression ctx.suppressionsByPhone φ with
        | some reason => exact ⟨_, rfl, Or.inl rfl⟩
        | none =>
            cases he : (ctx.env c).send with
            | exception msg => exact ⟨_, rfl, Or.inr (Or.inr ⟨false, rfl⟩)⟩
            | response r =>
                by_cases hok : (r.ok && hasProviderMessageId r) = true
                · simp only [hok, if_true]
                  exact ⟨_, rfl, Or.inr (Or.inl rfl)⟩
                · simp only [Bool.not_eq_true] at hok
                  simp only [hok, Bool.false_eq_true, if_false]
                  exact ⟨_, rfl, Or.inr (Or.inr ⟨_, rfl⟩)⟩

/-- Every op a contact contributes carries that contact's id, and only
claimed contacts contribute. -/
theorem contactOps_spec (ctx : BatchCtx) (ids : List String) (c : Contact) :
    ∀ op ∈ contactOps ctx ids c,
      op.contactId = contactIdStr c ∧ ids.contains (contactIdStr c) = true := by
  intro op hop
  by_cases h : ids.contains (contactIdStr c) = true
  · refine ⟨?_, h⟩
    obtain ⟨op', hid, hshape⟩ := contactStep_claimed ctx ids c h
    unfold contactOps at hop
    rcases hshape with hs | hs | ⟨b, hs⟩ <;>
      · rw [hs] at hop
        simp at hop
        subst hop
        exact hid
  · simp only [Bool.not_eq_true] at h
    unfold contactOps at hop
    rw [contactStep_not_claimed ctx ids c h] at hop
    simp at hop

/-- A claimed contact contributes exactly one outcome op. -/
theorem contactOps_length_claimed (ctx : BatchCtx) (ids : List String) (c : Contact)
    (h : ids.contains (contactIdStr c) = true) :
    (contactOps ctx ids c).length = 1 := by
  obtain ⟨op, _, hshape⟩ := contactStep_claimed ctx ids c h
  unfold contactOps
  rcases hshape with hs | hs | ⟨b, hs⟩ <;> rw [hs]
  all_goals rfl

/-- An unclaimed contact contributes no outcome op. -/
theorem contactOps_not_claimed (ctx : BatchCtx) (ids : List String) (c : Contact)
    (h : ids.contains (contactIdStr c) = false) :
    contactOps ctx ids c = [] := by
  unfold contactOps
  rw [contactStep_not_claimed ctx ids c h]

/-- Every recorded send attempt carries a claimed contact's id. -/
theorem contactAttempts_spec (ctx : BatchCtx) (ids : List String) (c : Contact) :
    ∀ a ∈ contactAttempts ctx ids c,
      a = contactIdStr c ∧ ids.contains (contactIdStr c) = true := by
  intro a ha
  by_cases h : ids.contains (contactIdStr c) = true
  · refine ⟨?_, h⟩
    obtain ⟨op', hid, hshape⟩ := contactStep_claimed ctx ids c h
    unfold contactAttempts at ha
    rcases hshape with hs | hs | ⟨b, hs⟩ <;> rw [hs] at ha <;> simp at ha <;>
      exact ha ▸ hid
  · simp only [Bool.not_eq_true] at h
    unfold contactAttempts at ha
    rw [contactStep_not_claimed ctx ids c h] at ha
    simp at ha

/-- `processContact` appends exactly the contact's ops to `writeOps`. -/
theorem processContact_writeOps (ctx : BatchCtx) (ids : List String)
    (st : BatchState) (c : Contact) :
    (processContact ctx ids st c).writeOps = st.writeOps ++ contactOps ctx ids c := by
  unfold processContact contactOps
  cases contactStep ctx ids c <;> simp

/-- `processContact` appends exactly the contact's attempts. -/
theorem processContact_sendAttempts (ctx : BatchCtx) (ids : List String)
    (st : BatchState) (c : Contact) :
    (processContact ctx ids st c).sendAttempts =
      st.sendAttempts ++ contactAttempts ctx ids c := by
  unfold processContact contactAttempts
  cases contactStep ctx ids c <;> simp

/-- The pool fold's `writeOps` is the concatenation of per-contact ops. -/
theorem foldl_writeOps (ctx : BatchCtx) (ids : List String) :
    ∀ (batch : List Contact) (st : BatchState),
      (batch.foldl (processContact ctx ids) st).writeOps =
        st.writeOps ++ (batch.map (contactOps ctx ids)).flatten
  | [], st => by simp
  | c :: t, st => by
      simp only [List.foldl_cons, List.map_cons, List.flatten]
      rw [foldl_writeOps ctx ids t (processContact ctx ids st c),
        processContact_writeOps]
      simp

/-- The pool fold's `sendAttempts` is the concatenation of per-contact
attempts. -/
theorem foldl_sendAttempts (ctx : BatchCtx) (ids : List String) :
    ∀ (batch : List Contact) (st : BatchState),
      (batch.foldl (processContact ctx ids) st).sendAttempts =
        st.sendAttempts ++ (batch.map (contactAttempts ctx ids)).flatten
  | [], st => by simp
  | c :: t, st => by
      simp only [List.foldl_cons, List.map_cons, List.flatten]
      rw [foldl_sendAttempts ctx ids t (processContact ctx ids st c),
        processContact_sendAttempts]
      simp

/-- Every op the pool records belongs to a claimed contact. -/
theorem runBatchPool_ops_claimed (ctx : BatchCtx) (ids : List String)
    (batch : List Contact) :
    ∀ op ∈ (runBatchPool ctx ids batch).writeOps, ids.contains op.contactId = true := by
  intro op hop
  unfold runBatchPool at hop
  rw [foldl_writeOps] at hop
  simp only [initialBatchState, List.nil_append] at hop
  rw [List.mem_flatten] at hop
  obtain ⟨l, hl, hopl⟩ := hop
  rw [List.mem_map] at hl
  obtain ⟨c, _, hcl⟩ := hl
  obtain ⟨hid, hcl'⟩ := contactOps_spec ctx ids c op (hcl ▸ hopl)
  rw [hid]
  exact hcl'

/-- Every send attempt the pool records belongs to a claimed contact. -/
theorem runBatchPool_attempts_claimed (ctx : BatchCtx) (ids : List String)
    (batch : List Contact) :
    ∀ a ∈ (runBatchPool ctx ids batch).sendAttempts, ids.contains a = true := by
  intro a ha
  unfold runBatchPool at ha
  rw [foldl_sendAttempts] at ha
  simp only [initialBatchState, List.nil_append] at ha
  rw [List.mem_flatten] at ha
  obtain ⟨l, hl, hal⟩ := ha
  rw [List.mem_map] at hl
  obtain ⟨c, _, hcl⟩ := hl
  obtain ⟨hid, hcl'⟩ := contactAttempts_spec ctx ids c a (hcl ▸ hal)
  rw [hid]
  exact hcl'

/-- Shape of a successful `send-batch` step: either one of the early
returns fired (pause, zero claim) and the state is untouched, or the pool
ran over the claimed ids. -/
theorem runSendBatch_ok_cases (ctx : BatchCtx) (tf : Bool)
    (status : Option CampaignStatus) (batch : List Contact)
    (store : StoreUpdateResult) (now : String) (S : BatchState)
    (hrun : runSendBatch ctx tf status batch store now = .ok S) :
    S = initialBatchState ∨
    ∃ cr : ClaimResult, bulkClaimPendingForSend batch store now = .ok cr ∧
      cr.claimedIds ≠ [] ∧ S = runBatchPool ctx cr.claimedIds batch := by
  unfold runSendBatch at hrun
  split at hrun
  · simp at hrun
  · split at hrun
    · left
      injection hrun with h
      exact h.symm
    · split at hrun
      · simp at hrun
      · rename_i cr heq
        split at hrun
        · left
          injection hrun with h
          exact h.symm
        · rename_i hlen
          right
          refine ⟨cr, heq, ?_, ?_⟩
          · intro hnil
            exact hlen (by rw [hnil]; rfl)
          · injection hrun with h
            exact h.symm

/-! ## Claim theorems -/

/-- **C1.** A batch execution is gated by the bulk claim: if the claim
transitions zero rows, the step returns the untouched initial state (no
external send call, no outcome); and a recipient id outside the returned
claimed set gets no send attempt and no recorded outcome in this
execution. -/
theorem send_batch_respects_claim (ctx : BatchCtx) (tf : Bool)
    (status : Option CampaignStatus) (batch : List Contact)
    (store : StoreUpdateResult) (nowClaim : String) (cr : ClaimResult)
    (S : BatchState)
    (hcr : bulkClaimPendingForSend batch store nowClaim = .ok cr)
    (hrun : runSendBatch ctx tf status batch store nowClaim = .ok S) :
    (cr.claimedIds = [] → S = initialBatchState) ∧
    (∀ id, id ∉ cr.claimedIds →
      (∀ op ∈ S.writeOps, op.contactId ≠ id) ∧ id ∉ S.sendAttempts) := by
  rcases runSendBatch_ok_cases ctx tf status batch store nowClaim S hrun with
    h | ⟨cr', hbc, hne, hS⟩
  · subst h
    refine ⟨fun _ => rfl, fun id _ => ⟨?_, ?_⟩⟩
    · intro op hop
      simp [initialBatchState] at hop
    · simp [initialBatchState]
  · have hcc : cr' = cr := by
      rw [hcr] at hbc
      injection hbc with h
      exact h.symm
    subst hcc
    subst hS
    constructor
    · intro hnil
      exact absurd hnil hne
    · intro id hid
      constructor
      · intro op hop heq
        have hcl := runBatchPool_ops_claimed ctx cr'.claimedIds batch op hop
        rw [heq] at hcl
        exact hid (by simpa using hcl)
      · intro hmem
        have hcl := runBatchPool_attempts_claimed ctx cr'.claimedIds batch id hmem
        exact hid (by simpa using hcl)

/-- Witness for C1: a batch of one pending contact whose claim returns zero
rows is a no-op, and the foreign id `"c9"` (not claimed) gets neither an
attempt nor an outcome. -/
theorem send_batch_respects_claim_witness :
    ((ClaimResult.mk none []).claimedIds = [] → initialBatchState = initialBatchState) ∧
    (∀ id, id ∉ (ClaimResult.mk none []).claimedIds →
      (∀ op ∈ initialBatchState.writeOps, op.contactId ≠ id) ∧
      id ∉ initialBatchState.sendAttempts) :=
  send_batch_respects_claim (sampleEnvCtx ⟨.eligible "p", .exception "x"⟩) true none
    [sampleContact] (.rows []) "t0" ⟨none, []⟩ initialBatchState (by rfl) (by rfl)

/-- **C2.** For a send attempt that reaches the external call and gets a
parsed response `r`, the recorded outcome status is `sent` exactly when
`response.ok` holds **and** the body carries a provider-assigned message
identifier; otherwise it is `failed`. -/
theorem send_outcome_classification (ctx : BatchCtx) (ids : List String)
    (c : Contact) (r : MetaResponse) (φ : String)
    (hcl : ids.contains (contactIdStr c) = true)
    (henv : ctx.env c = ⟨.eligible φ, .response r⟩)
    (hopt : ctx.optOutContactIds.contains (contactIdStr c) = false)
    (hsup : lookupSuppression ctx.suppressionsByPhone φ = none) :
    (contactStep ctx ids c).statusOf =
      some (if r.ok && hasProviderMessageId r then OutcomeStatus.sent
            else OutcomeStatus.failed) := by
  unfold contactStep
  rw [if_neg (by simpa using hcl)]
  simp only [henv, hopt, hsup]
  by_cases hok : (r.ok && hasProviderMessageId r) = true
  · simp [hok, ContactStepResult.statusOf]
  · simp only [Bool.not_eq_true] at hok
    simp [hok, ContactStepResult.statusOf]

/-- Witness for C2, the spec's scenario: an HTTP 200 response whose body
has no message identifier is classified `failed`, not `sent`. -/
theorem send_outcome_classification_witness :
    (contactStep (sampleEnvCtx ⟨.eligible "p", .response okResponseWithoutId⟩)
      ["c1"] sampleContact).statusOf = some OutcomeStatus.failed :=
  (send_outcome_classification
      (sampleEnvCtx ⟨.eligible "p", .response okResponseWithoutId⟩)
      ["c1"] sampleContact okResponseWithoutId "p"
      (by rfl) (by rfl) (by rfl) (by rfl)).trans (by rfl)

/-- Throttle invariant of the pool fold: the number of
`recordThroughputExceeded` invocations is bounded by the flag. -/
theorem foldl_throttle_bound (ctx : BatchCtx) (ids : List String) :
    ∀ (batch : List Contact) (st : BatchState),
      st.throttleDecreaseCalls ≤ (if st.sawThroughput429 then 1 else 0) →
      (batch.foldl (processContact ctx ids) st).throttleDecreaseCalls ≤
        (if (batch.foldl (processContact ctx ids) st).sawThroughput429 then 1 else 0)
  | [], st, h => h
  | c :: t, st, h => by
      simp only [List.foldl_cons]
      refine foldl_throttle_bound ctx ids t (processContact ctx ids st c) ?_
      unfold processContact
      cases contactStep ctx ids c with
      | notClaimed => exact h
      | skippedOp op => exact h
      | sentOp op => exact h
      | failedOp op b =>
          simp only
          cases hsaw : st.sawThroughput429 <;> cases hb : b <;>
            simp [hsaw, hb] at h ⊢ <;> omega

/-- **C4.** Within one batch step execution, the multiplicative throttle
decrease `recordThroughputExceeded` runs at most once, however many
recipients of the batch hit error code 130429: the `sawThroughput429` flag
set at the first occurrence suppresses all later ones. -/
theorem throttle_decrease_at_most_once (ctx : BatchCtx) (tf : Bool)
    (status : Option CampaignStatus) (batch : List Contact)
    (store : StoreUpdateResult) (now : String) (S : BatchState)
    (hrun : runSendBatch ctx tf status batch store now = .ok S) :
    S.throttleDecreaseCalls ≤ 1 := by
  rcases runSendBatch_ok_cases ctx tf status batch store now S hrun with
    h | ⟨cr, _, _, hS⟩
  · rw [h]
    exact Nat.zero_le 1
  · subst hS
    have hb := foldl_throttle_bound ctx cr.claimedIds batch initialBatchState
      (by simp [initialBatchState])
    unfold runBatchPool
    refine le_trans hb ?_
    split <;> omega

/-- Witness for C4: a batch of two claimed recipients that **both** answer
with error 130429 still records exactly one throttle decrease. -/
theorem throttle_decrease_at_most_once_witness :
    (runBatchPool (sampleEnvCtx ⟨.eligible "p", .response throughput429Response⟩)
      ["c1", "c2"] [sampleContact, sampleContact2]).throttleDecreaseCalls ≤ 1 :=
  throttle_decrease_at_most_once
    (sampleEnvCtx ⟨.eligible "p", .response throughput429Response⟩)
    true none [sampleContact, sampleContact2] (.rows ["c1", "c2"]) "t0"
    (runBatchPool (sampleEnvCtx ⟨.eligible "p", .response throughput429Response⟩)
      ["c1", "c2"] [sampleContact, sampleContact2])
    (by rfl)

/-- Ops contributed by a list of contacts carry ids from that list. -/
theorem flatten_ops_ids (ctx : BatchCtx) (ids : List String)
    (batch : List Contact) :
    ∀ op ∈ (batch.map (contactOps ctx ids)).flatten,
      op.contactId ∈ batch.map contactIdStr := by
  intro op hop
  rw [List.mem_flatten] at hop
  obtain ⟨l, hl, hopl⟩ := hop
  rw [List.mem_map] at hl
  obtain ⟨c, hcb, hcl⟩ := hl
  obtain ⟨hid, _⟩ := contactOps_spec ctx ids c op (hcl ▸ hopl)
  rw [hid]
  exact List.mem_map.mpr ⟨c, hcb, rfl⟩

/-- In a batch with pairwise-distinct contact ids, a claimed contact's id
shows up on exactly one recorded outcome op of the pool. -/
theorem flatten_ops_filter_eq_one (ctx : BatchCtx) (ids : List String) :
    ∀ (batch : List Contact), (batch.map contactIdStr).Nodup →
      ∀ c ∈ batch, ids.contains (contactIdStr c) = true →
        ((batch.map (contactOps ctx ids)).flatten.filter
          (fun op => op.contactId == contactIdStr c)).length = 1
  | [], _, c, hc, _ => absurd hc (List.not_mem_nil c)
  | h :: t, hnd, c, hc, hcl => by
      simp only [List.map_cons, List.flatten_cons, List.filter_append,
        List.length_append]
      have hnd1 : contactIdStr h ∉ t.map contactIdStr :=
        (List.nodup_cons.mp hnd).1
      have hnd2 : (t.map contactIdStr).Nodup := (List.nodup_cons.mp hnd).2
      rcases List.mem_cons.mp hc with hch | hct
      · subst hch
        have hkeep : (contactOps ctx ids c).filter
            (fun op => op.contactId == contactIdStr c) = contactOps ctx ids c := by
          rw [List.filter_eq_self]
          intro op hop
          simp [(contactOps_spec ctx ids c op hop).1]
        have hdrop : ((t.map (contactOps ctx ids)).flatten.filter
            (fun op => op.contactId == contactIdStr c)) = [] := by
          rw [List.filter_eq_nil_iff]
          intro op hop
          have hmem := flatten_ops_ids ctx ids t op hop
          simp only [beq_iff_eq]
          intro heq
          exact hnd1 (heq ▸ hmem)
        rw [hkeep, hdrop, contactOps_length_claimed ctx ids c hcl]
        rfl
      · have hne : contactIdStr h ≠ contactIdStr c := by
          intro heq
          exact hnd1 (heq ▸ List.mem_map.mpr ⟨c, hct, rfl⟩)
        have hdrop : (contactOps ctx ids h).filter
            (fun op => op.contactId == contactIdStr c) = [] := by
          rw [List.filter_eq_nil_iff]
          intro op hop
          simp only [beq_iff_eq]
          rw [(contactOps_spec ctx ids h op hop).1]
          exact hne
        rw [hdrop]
        simp only [List.length_nil, Nat.zero_add]
        exact flatten_ops_filter_eq_one ctx ids t hnd2 c hct hcl

/-- In a batch with pairwise-distinct contact ids, any recorded op carrying
contact `c`'s id was contributed by `c` itself. -/
theorem flatten_ops_mem_of_id (ctx : BatchCtx) (ids : List String) :
    ∀ (batch : List Contact), (batch.map contactIdStr).Nodup →
      ∀ c ∈ batch, ∀ op ∈ (batch.map (contactOps ctx ids)).flatten,
        op.contactId = contactIdStr c → op ∈ contactOps ctx ids c
  | [], _, c, hc, _, _, _ => absurd hc (List.not_mem_nil c)
  | h :: t, hnd, c, hc, op, hop, hid => by
      have hnd1 : contactIdStr h ∉ t.map contactIdStr :=
        (List.nodup_cons.mp hnd).1
      have hnd2 : (t.map contactIdStr).Nodup := (List.nodup_cons.mp hnd).2
      simp only [List.map_cons, List.flatten_cons, List.mem_append] at hop
      rcases List.mem_cons.mp hc with hch | hct
      · subst hch
        rcases hop with hop | hop
        · exact hop
        · exact absurd (hid ▸ flatten_ops_ids ctx ids t op hop) hnd1
      · rcases hop with hop | hop
        · have := (contactOps_spec ctx ids h op hop).1
          rw [hid] at this
          exact absurd (this ▸ List.mem_map.mpr ⟨c, hct, rfl⟩) hnd1
        · exact flatten_ops_mem_of_id ctx ids t hnd2 c hct op hop hid

/-- A claimed, guardrail-eligible, unsuppressed contact whose send call
throws contributes exactly the caught-exception `failed` op (route.ts
lines 823-855). -/
theorem contactOps_exception (ctx : BatchCtx) (ids : List String)
    (c : Contact) (φ m : String)
    (hcl : ids.contains (contactIdStr c) = true)
    (henv : ctx.env c = ⟨.eligible φ, .exception m⟩)
    (hopt : ctx.optOutContactIds.contains (contactIdStr c) = false)
    (hsup : lookupSuppression ctx.suppressionsByPhone φ = none) :
    contactOps ctx ids c = [⟨contactIdStr c, c.phone, .failed,
      { sendingAt := some ctx.nowSending, error := some m,
        errorTitle := some "Contact exception", errorDetails := some m,
        traceId := some ctx.traceId }⟩] := by
  have hopt' : contactIdStr c ∉ ctx.optOutContactIds := by simpa using hopt
  unfold contactOps contactStep
  rw [if_neg (by simpa using hcl)]
  simp [henv, hopt', hsup]

/-- **C6.** Every recipient claimed in a batch gets exactly one recorded
outcome in {sent, failed, skipped} from the pool, whatever happens to the
other recipients; and when that recipient's processing throws (e.g. a
network timeout), the single outcome is `failed` and carries the exception
message. -/
theorem per_recipient_exactly_one_outcome (ctx : BatchCtx) (ids : List String)
    (batch : List Contact) (c : Contact)
    (hnd : (batch.map contactIdStr).Nodup) (hc : c ∈ batch)
    (hcl : ids.contains (contactIdStr c) = true) :
    (((runBatchPool ctx ids batch).writeOps.filter
        (fun op => op.contactId == contactIdStr c)).length = 1) ∧
    (∀ φ m, ctx.env c = ⟨.eligible φ, .exception m⟩ →
      ctx.optOutContactIds.contains (contactIdStr c) = false →
      lookupSuppression ctx.suppressionsByPhone φ = none →
      ∀ op ∈ (runBatchPool ctx ids batch).writeOps,
        op.contactId = contactIdStr c →
          op.status = .failed ∧ op.opts.error = some m ∧
            op.opts.errorDetails = some m) := by
  have hops : (runBatchPool ctx ids batch).writeOps =
      (batch.map (contactOps ctx ids)).flatten := by
    unfold runBatchPool
    rw [foldl_writeOps]
    simp [initialBatchState]
  rw [hops]
  constructor
  · exact flatten_ops_filter_eq_one ctx ids batch hnd c hc hcl
  · intro φ m henv hopt hsup op hop hid
    have h1 := flatten_ops_mem_of_id ctx ids batch hnd c hc op hop hid
    rw [contactOps_exception ctx ids c φ m hcl henv hopt hsup] at h1
    simp only [List.mem_singleton] at h1
    subst h1
    exact ⟨rfl, rfl, rfl⟩

/-- Witness for C6: two claimed recipients whose sends both time out — the
first one still gets exactly one outcome, a `failed` op carrying the
exception message, and the second one was still processed. -/
theorem per_recipient_exactly_one_outcome_witness :
    (((runBatchPool (sampleEnvCtx ⟨.eligible "p", .exception "network timeout"⟩)
        ["c1", "c2"] [sampleContact, sampleContact2]).writeOps.filter
        (fun op => op.contactId == contactIdStr sampleContact)).length = 1) ∧
    (∀ φ m,
      (sampleEnvCtx ⟨.eligible "p", .exception "network timeout"⟩).env sampleContact =
        ⟨.eligible φ, .exception m⟩ →
      (sampleEnvCtx ⟨.eligible "p", .exception "network timeout"⟩).optOutContactIds.contains
        (contactIdStr sampleContact) = false →
      lookupSuppression
        (sampleEnvCtx ⟨.eligible "p", .exception "network timeout"⟩).suppressionsByPhone φ = none →
      ∀ op ∈ (runBatchPool (sampleEnvCtx ⟨.eligible "p", .exception "network timeout"⟩)
          ["c1", "c2"] [sampleContact, sampleContact2]).writeOps,
        op.contactId = contactIdStr sampleContact →
          op.status = .failed ∧ op.opts.error = some m ∧
            op.opts.errorDetails = some m) :=
  per_recipient_exactly_one_outcome
    (sampleEnvCtx ⟨.eligible "p", .exception "network timeout"⟩)
    ["c1", "c2"] [sampleContact, sampleContact2] sampleContact
    (by decide) (by decide) (by decide)

/-- **C5 counterexample.** With one pending contact and the store
unavailable, `bulkClaimPendingForSend` does **not** propagate the error:
it returns `ok` with an empty claimed set (route.ts lines 100-103 log a
warning and continue), and the whole batch step completes as the
zero-claim no-op instead of failing. -/
theorem claim_store_failure_not_propagated :
    bulkClaimPendingForSend [sampleContact] (.failure "store unavailable") "t0" =
      .ok ⟨none, []⟩ ∧
    (∀ err, bulkClaimPendingForSend [sampleContact]
      (.failure "store unavailable") "t0" ≠ .error err) ∧
    runSendBatch (sampleEnvCtx ⟨.eligible "p", .exception "unreachable"⟩) true none
      [sampleContact] (.failure "store unavailable") "t0" = .ok initialBatchState := by
  refine ⟨by rfl, ?_, by rfl⟩
  intro err h
  simp [bulkClaimPendingForSend] at h

/-- **C5 (amended).** If the store is unavailable when the claim is issued,
the claim call swallows the error and returns an empty claimed set, and
the batch step short-circuits as a successful zero-claim no-op — it does
not fail and is not retried. -/
theorem claim_store_failure_swallowed (ctx : BatchCtx) (batch : List Contact)
    (e nowClaim : String) :
    bulkClaimPendingForSend batch (.failure e) nowClaim = .ok ⟨none, []⟩ ∧
    runSendBatch ctx true none batch (.failure e) nowClaim = .ok initialBatchState := by
  have h1 : bulkClaimPendingForSend batch (.failure e) nowClaim = .ok ⟨none, []⟩ := by
    unfold bulkClaimPendingForSend
    split <;> simp_all
  refine ⟨h1, ?_⟩
  unfold runSendBatch
  rw [h1]
  simp

/-- **C7.** The completion step sets the final status to `failed` iff
`(failed + skipped) == recipients && recipients > 0`, to `completed`
otherwise, and stamps `completedAt` with the current instant. -/
theorem complete_campaign_final_status (c : Campaign) (now : String) :
    ((completeCampaignStep (some c) now).1 = CampaignStatus.failed ↔
      (c.failed + c.skipped = c.recipients ∧ 0 < c.recipients)) ∧
    ((completeCampaignStep (some c) now).1 = CampaignStatus.completed ↔
      ¬(c.failed + c.skipped = c.recipients ∧ 0 < c.recipients)) ∧
    (completeCampaignStep (some c) now).2 = some now := by
  unfold completeCampaignStep
  by_cases h : c.failed + c.skipped = c.recipients ∧ c.recipients > 0
  · simp [h]
  · simp [h]

/-- **C10.** `lastSentAt` is monotone: when the stored value is a truthy
string that parses to instant `a`, the counters update either keeps it
unchanged or replaces it with the batch candidate, and the latter only when
the candidate parses to a strictly later instant `b > a`.  A batch that
sent nothing (`candidateRaw = none`) always keeps the stored value. -/
theorem safeLastSentAt_monotone (parse : String → Option Int)
    (existingRaw candidateRaw : Option String) (e : String) (a : Int)
    (hE : jsOrNullS existingRaw = some e) (hP : parse e = some a) :
    (candidateRaw = none → safeLastSentAt parse existingRaw candidateRaw = some e) ∧
    (safeLastSentAt parse existingRaw candidateRaw = some e ∨
      ∃ c b, jsOrNullS candidateRaw = some c ∧ parse c = some b ∧ a < b ∧
        safeLastSentAt parse existingRaw candidateRaw = some c) := by
  constructor
  · intro hc
    subst hc
    exact hE
  · cases hcand : jsOrNullS candidateRaw with
    | none => left; simp [safeLastSentAt, hcand, hE]
    | some c =>
        cases hpc : parse c with
        | none => left; simp [safeLastSentAt, hcand, hE, hP, hpc]
        | some b =>
            by_cases hlt : a < b
            · right
              exact ⟨c, b, rfl, hpc, hlt, by simp [safeLastSentAt, hcand, hE, hP, hpc, hlt]⟩
            · left
              simp [safeLastSentAt, hcand, hE, hP, hpc, hlt]

/-- Witness for C10 at a concrete input: stored `"t1"` parses to 100, the
candidate `"t2"` parses to 200, so the update moves forward to `"t2"`
through the second disjunct of the theorem (instantiated here). -/
theorem safeLastSentAt_monotone_witness :
    (((some "t2" : Option String) = none →
        safeLastSentAt (fun s => if s = "t1" then some 100 else if s = "t2" then some 200 else none)
          (some "t1") (some "t2") = some "t1") ∧
      (safeLastSentAt (fun s => if s = "t1" then some 100 else if s = "t2" then some 200 else none)
          (some "t1") (some "t2") = some "t1" ∨
        ∃ c b, jsOrNullS (some "t2") = some c ∧
          (if c = "t1" then some (100 : Int) else if c = "t2" then some 200 else none) = some b ∧
          (100 : Int) < b ∧
          safeLastSentAt (fun s => if s = "t1" then some 100 else if s = "t2" then some 200 else none)
            (some "t1") (some "t2") = some c)) :=
  safeLastSentAt_monotone
    (fun s => if s = "t1" then some 100 else if s = "t2" then some 200 else none)
    (some "t1") (some "t2") "t1" 100 (by decide) (by decide)


/-- **C3 counterexample.** The per-row fallback writer applied over a
previously-`failed` row: transitioning it to `sent` leaves `failed_at` and
every `failure_*` column untouched, so the written row has **two**
terminal timestamps and stale failure fields — the claimed invariant fails
on the fallback path. -/
theorem persist_fallback_sent_stale_failure :
    terminalStampCount (applyRowUpdate
      { status := "failed", sending_at := some "2024-01-01T00:00:00Z",
        sent_at := none, failed_at := some "2024-01-01T00:00:05Z",
        skipped_at := none, message_id := none,
        error := some "(#131026) Mensagem nao entregue", skip_code := none,
        skip_reason := none, failure_code := some 131026,
        failure_reason := some "(#131026) Mensagem nao entregue",
        failure_title := some "Message undeliverable",
        failure_details := some "detalhe", failure_fbtrace_id := some "FB",
        failure_subcode := some 2494010, failure_href := none,
        trace_id := some "trace" }
      (updateContactStatus .sent
        { messageId := some "wamid.X", traceId := some "trace" }
        "2024-01-02T00:00:00Z" (fun s _ => s))) = 2 ∧
    failureFieldsCleared (applyRowUpdate
      { status := "failed", sending_at := some "2024-01-01T00:00:00Z",
        sent_at := none, failed_at := some "2024-01-01T00:00:05Z",
        skipped_at := none, message_id := none,
        error := some "(#131026) Mensagem nao entregue", skip_code := none,
        skip_reason := none, failure_code := some 131026,
        failure_reason := some "(#131026) Mensagem nao entregue",
        failure_title := some "Message undeliverable",
        failure_details := some "detalhe", failure_fbtrace_id := some "FB",
        failure_subcode := some 2494010, failure_href := none,
        trace_id := some "trace" }
      (updateContactStatus .sent
        { messageId := some "wamid.X", traceId := some "trace" }
        "2024-01-02T00:00:00Z" (fun s _ => s))) = false ∧
    (applyRowUpdate
      { status := "failed", sending_at := some "2024-01-01T00:00:00Z",
        sent_at := none, failed_at := some "2024-01-01T00:00:05Z",
        skipped_at := none, message_id := none,
        error := some "(#131026) Mensagem nao entregue", skip_code := none,
        skip_reason := none, failure_code := some 131026,
        failure_reason := some "(#131026) Mensagem nao entregue",
        failure_title := some "Message undeliverable",
        failure_details := some "detalhe", failure_fbtrace_id := some "FB",
        failure_subcode := some 2494010, failure_href := none,
        trace_id := some "trace" }
      (updateContactStatus .sent
        { messageId := some "wamid.X", traceId := some "trace" }
        "2024-01-02T00:00:00Z" (fun s _ => s))).failure_code = some 131026 := by
  refine ⟨rfl, rfl, rfl⟩

/-- **C3 (amended).** The invariant holds for every row written by the
**bulk upsert** path, over any prior row state: exactly one of {sent_at,
failed_at, skipped_at} is set, a `sent` row has all failure and skip
fields cleared, a `failed` row has the skip fields cleared, a `skipped`
row has all failure fields cleared.  The **per-row fallback**
(`updateContactStatus`), in contrast, only assigns its status-specific
columns: on `sent` it clears `error`/`skip_code`/`skip_reason`/`skipped_at`
but leaves `failed_at` and every `failure_*` column at the prior value. -/
theorem persist_terminal_exclusivity (prior : RecipientRow) (cid ph : String)
    (opts : WriteOpts) (traceId now : String)
    (normText : String → Nat → String) :
    (terminalStampCount (applyRowUpdate prior
        (upsertRowFor ⟨cid, ph, .sent, opts⟩ traceId now normText)) = 1 ∧
      failureFieldsCleared (applyRowUpdate prior
        (upsertRowFor ⟨cid, ph, .sent, opts⟩ traceId now normText)) = true ∧
      skipFieldsCleared (applyRowUpdate prior
        (upsertRowFor ⟨cid, ph, .sent, opts⟩ traceId now normText)) = true) ∧
    (terminalStampCount (applyRowUpdate prior
        (upsertRowFor ⟨cid, ph, .failed, opts⟩ traceId now normText)) = 1 ∧
      skipFieldsCleared (applyRowUpdate prior
        (upsertRowFor ⟨cid, ph, .failed, opts⟩ traceId now normText)) = true) ∧
    (terminalStampCount (applyRowUpdate prior
        (upsertRowFor ⟨cid, ph, .skipped, opts⟩ traceId now normText)) = 1 ∧
      failureFieldsCleared (applyRowUpdate prior
        (upsertRowFor ⟨cid, ph, .skipped, opts⟩ traceId now normText)) = true) ∧
    ((applyRowUpdate prior (updateContactStatus .sent opts now normText)).sent_at
        = some now ∧
      (applyRowUpdate prior (updateContactStatus .sent opts now normText)).skipped_at
        = none ∧
      (applyRowUpdate prior (updateContactStatus .sent opts now normText)).error
        = none ∧
      (applyRowUpdate prior (updateContactStatus .sent opts now normText)).skip_code
        = none ∧
      (applyRowUpdate prior (updateContactStatus .sent opts now normText)).skip_reason
        = none ∧
      (applyRowUpdate prior (updateContactStatus .sent opts now normText)).failed_at
        = prior.failed_at ∧
      (applyRowUpdate prior (updateContactStatus .sent opts now normText)).failure_code
        = prior.failure_code ∧
      (applyRowUpdate prior (updateContactStatus .sent opts now normText)).failure_reason
        = prior.failure_reason ∧
      (applyRowUpdate prior (updateContactStatus .sent opts now normText)).failure_title
        = prior.failure_title ∧
      (applyRowUpdate prior (updateContactStatus .sent opts now normText)).failure_details
        = prior.failure_details ∧
      (applyRowUpdate prior (updateContactStatus .sent opts now normText)).failure_fbtrace_id
        = prior.failure_fbtrace_id ∧
      (applyRowUpdate prior (updateContactStatus .sent opts now normText)).failure_subcode
        = prior.failure_subcode ∧
      (applyRowUpdate prior (updateContactStatus .sent opts now normText)).failure_href
        = prior.failure_href) := by
  refine ⟨⟨?_, ?_, ?_⟩, ⟨?_, ?_⟩, ⟨?_, ?_⟩,
    rfl, rfl, rfl, rfl, rfl, rfl, rfl, rfl, rfl, rfl, rfl, rfl, rfl⟩ <;>
    simp [applyRowUpdate, upsertRowFor, terminalStampCount,
      failureFieldsCleared, skipFieldsCleared]

/-- **C8.** A recipient missing its required identity (absent or
whitespace-only `contactId`) makes the whole workflow run throw before
any step executes: no `init-campaign`, no batch step, hence no claim. -/
theorem missing_contact_id_fails_fast (contacts : List Contact)
    (batchSize : Nat) (c : Contact) (hc : c ∈ contacts)
    (hm : contactIdMissing c = true) :
    (workflowRun contacts batchSize).1 = [] ∧
    (workflowRun contacts batchSize).2.isSome = true := by
  have hmem : c ∈ missingContactIds contacts :=
    List.mem_filter.mpr ⟨hc, hm⟩
  have hlen : 0 < (missingContactIds contacts).length :=
    List.length_pos_of_mem hmem
  unfold workflowRun
  rw [if_pos hlen]
  exact ⟨rfl, rfl⟩

/-- Witness for C8: a payload with one identity-less recipient executes no
step at all and surfaces an error. -/
theorem missing_contact_id_fails_fast_witness :
    (workflowRun [⟨none, "5511999999999", "SemId"⟩] 10).1 = [] ∧
    (workflowRun [⟨none, "5511999999999", "SemId"⟩] 10).2.isSome = true :=
  missing_contact_id_fails_fast [⟨none, "5511999999999", "SemId"⟩] 10
    ⟨none, "5511999999999", "SemId"⟩ (by decide) (by decide)

/-- **C9 counterexample.** The source spawns `min(concurrency,
batch.length)` workers (route.ts line 861), not `min(concurrency,
len(claimedRecipients))`: with a batch of 3 contacts of which only one is
claimed and concurrency 2, the code spawns 2 workers while the claim's
formula gives 1. -/
theorem worker_count_uses_batch_length_not_claimed :
    workerCount 2 [sampleContact, sampleContact2, sampleContact3].length = 2 ∧
    specWorkerCount 2 ["c1"] [sampleContact, sampleContact2, sampleContact3] = 1 ∧
    (2 : Nat) ≠ 1 := by
  refine ⟨rfl, by decide, by decide⟩

/-- One pool segment preserves the cursor invariants: the assigned indices
are exactly `range (min nextIndex len)`, and once any worker has retired
the cursor has passed `len`. -/
theorem poolStep_inv {n : Nat} (len : Nat) (s : PoolState n) (w : Fin n)
    (h1 : s.assigned.map Prod.snd = List.range (min s.nextIndex len))
    (h2 : (∃ v, s.active v = false) → len ≤ s.nextIndex) :
    ((poolStep len s w).assigned.map Prod.snd =
      List.range (min (poolStep len s w).nextIndex len)) ∧
    ((∃ v, (poolStep len s w).active v = false) →
      len ≤ (poolStep len s w).nextIndex) := by
  unfold poolStep
  by_cases ha : s.active w = true
  · rw [if_pos ha]
    by_cases hlt : s.nextIndex < len
    · rw [if_pos hlt]
      constructor
      · simp only [List.map_append, List.map_cons, List.map_nil, h1]
        have hmin : min s.nextIndex len = s.nextIndex := by omega
        have hmin2 : min (s.nextIndex + 1) len = s.nextIndex + 1 := by omega
        rw [hmin, hmin2, List.range_succ]
      · intro hex
        exact le_trans (h2 hex) (Nat.le_succ _)
    · rw [if_neg hlt]
      constructor
      · dsimp only
        rw [h1]
        congr 1
        omega
      · intro _
        dsimp only
        omega
  · rw [if_neg ha]
    exact ⟨h1, h2⟩

/-- The pool fold preserves the cursor invariants from any state. -/
theorem poolFold_inv (len : Nat) {n : Nat} :
    ∀ (schedule : List (Fin n)) (s : PoolState n),
      (s.assigned.map Prod.snd = List.range (min s.nextIndex len) ∧
        ((∃ v, s.active v = false) → len ≤ s.nextIndex)) →
      ((schedule.foldl (poolStep len) s).assigned.map Prod.snd =
        List.range (min (schedule.foldl (poolStep len) s).nextIndex len) ∧
        ((∃ v, (schedule.foldl (poolStep len) s).active v = false) →
          len ≤ (schedule.foldl (poolStep len) s).nextIndex))
  | [], _, h => h
  | w :: ws, s, h => by
      simp only [List.foldl_cons]
      exact poolFold_inv len ws (poolStep len s w)
        (poolStep_inv len s w h.1 h.2)

/-- **C9 (amended).** The pool spawns `workerCount = min(concurrency,
batch.length)` workers over the shared cursor; under any interleaving
after which every worker has returned, the workers have pulled exactly
the batch indices `0 .. batch.length - 1`, each exactly once (so every
claimed recipient of the batch is processed by exactly one worker). -/
theorem worker_pool_each_index_once (raw : Option Int) (len : Nat)
    (schedule : List (Fin (workerCount (clampConcurrency raw) len)))
    (hall : ∀ w, (poolRun len (workerCount (clampConcurrency raw) len)
      schedule).active w = false) :
    (poolRun len (workerCount (clampConcurrency raw) len) schedule).assigned.map
      Prod.snd = List.range len := by
  have hinit : ((poolInit (workerCount (clampConcurrency raw) len)).assigned.map
        Prod.snd = List.range (min (poolInit (workerCount (clampConcurrency raw)
          len)).nextIndex len)) ∧
      ((∃ v, (poolInit (workerCount (clampConcurrency raw) len)).active v = false) →
        len ≤ (poolInit (workerCount (clampConcurrency raw) len)).nextIndex) := by
    constructor
    · simp [poolInit]
    · rintro ⟨v, hv⟩
      exact absurd hv (by simp [poolInit])
  have hinv := poolFold_inv len schedule
    (poolInit (workerCount (clampConcurrency raw) len)) hinit
  unfold poolRun
  rcases Nat.eq_zero_or_pos len with hlen | hlen
  · subst hlen
    rw [hinv.1]
    simp
  · have hc1 : 1 ≤ clampConcurrency raw := by
      cases raw with
      | none => exact le_refl 1
      | some v =>
          show 1 ≤ (max 1 (min 50 v)).toNat
          omega
    have hn1 : 1 ≤ workerCount (clampConcurrency raw) len := by
      unfold workerCount
      omega
    have hge := hinv.2 ⟨⟨0, hn1⟩, hall ⟨0, hn1⟩⟩
    rw [hinv.1]
    congr 1
    omega

/-- Witness for C9's amended theorem: 2 workers over a batch of 3, with an
interleaved schedule that runs both workers to retirement: the pulled
indices are exactly `[0, 1, 2]`. -/
theorem worker_pool_each_index_once_witness :
    (poolRun 3 (workerCount (clampConcurrency (some 2)) 3)
      [⟨0, by decide⟩, ⟨1, by decide⟩, ⟨0, by decide⟩, ⟨0, by decide⟩,
        ⟨1, by decide⟩]).assigned.map Prod.snd = List.range 3 :=
  worker_pool_each_index_once (some 2) 3
    [⟨0, by decide⟩, ⟨1, by decide⟩, ⟨0, by decide⟩, ⟨0, by decide⟩,
      ⟨1, by decide⟩]
    (by decide)

end SmartZap
